import Mathlib

/-!
Verification of the contacts-management backend (auth/session core and
contact directory) against its specification.

The development shallowly embeds the Python sources:
  * `src/auth/services.py`  — token codec (`Auth` class),
  * `src/auth/routes.py`    — login / refresh / confirmed_email / request_email,
  * `src/auth/crud.py`      — user directory access,
  * `src/users/routes.py` and `src/users/crud.py` — avatar update and cache write,
  * `src/contacts/crud.py` and `src/contacts/routes.py` — contact directory.

Machine integers do not occur; timestamps are naturals (seconds since an
arbitrary epoch), mirroring the integer `iat`/`exp` claims a JWT carries.
A signed token is modelled by its claim set: `jose.jwt.encode` is
deterministic, so two tokens with equal claim sets are the same string,
and any string produced by `jwt.encode` under the process secret decodes
to exactly its claim set (signature checking always succeeds in-process;
forged strings are outside the model).
-/

/-- Claim set of a JWT issued by the service: subject (user email),
issued-at, expiry, and the optional `scope` entry.  `create_email_token`
puts no `scope` key in the payload, hence the `Option`. -/
structure Token where
  sub : String
  iat : Nat
  exp : Nat
  scope : Option String
deriving DecidableEq, Repr

/-- Model of `jose.jwt.decode` under the process secret: signature always
verifies (the token was produced in-process), and the library checks the
`exp` claim, raising `ExpiredSignatureError` (a `JWTError`) when the token
is stale.  `none` is the `JWTError` outcome. -/
def jwtDecode (t : Token) (now : Nat) : Option Token :=
  if t.exp ≤ now then none else some t

/-- Embeds `Auth.create_access_token` (services.py:55-74): expiry is
`now + expires_delta` seconds when given, else 15 minutes, and the payload
is tagged `scope = "access_token"`. -/
def create_access_token (sub : String) (expires_delta : Option Nat) (now : Nat) : Token :=
  let exp := match expires_delta with
    | some s => now + s
    | none => now + 15 * 60
  { sub := sub, iat := now, exp := exp, scope := some "access_token" }

/-- Embeds `Auth.create_refresh_token` (services.py:76-95): expiry is
`now + expires_delta` seconds when given, else 7 days, and the payload is
tagged `scope = "refresh_token"`. -/
def create_refresh_token (sub : String) (expires_delta : Option Nat) (now : Nat) : Token :=
  let exp := match expires_delta with
    | some s => now + s
    | none => now + 7 * 24 * 60 * 60
  { sub := sub, iat := now, exp := exp, scope := some "refresh_token" }

/-- Embeds `Auth.create_email_token` (services.py:171-185): expiry fixed at
7 days and — unlike the access/refresh constructors — NO `scope` entry is
added to the payload. -/
def create_email_token (sub : String) (now : Nat) : Token :=
  { sub := sub, iat := now, exp := now + 7 * 24 * 60 * 60, scope := none }

/-- Outcome of a scope-checked decode.  `unauthorized d` is the raised
`HTTPException(401, d)`; `keyErr` is an uncaught Python `KeyError`
(`payload['scope']` on a payload without that key — `KeyError` is not a
`JWTError`, so the `except` clause does not catch it). -/
inductive DecodeResult where
  | ok (email : String)
  | unauthorized (detail : String)
  | keyErr
deriving DecidableEq, Repr

/-- Embeds `Auth.decode_refresh_token` (services.py:97-119): on `JWTError`
raise 401 "Could not validate credentials"; else look up `payload['scope']`
(KeyError when absent) and return `payload['sub']` when the scope is
`"refresh_token"`, raising 401 "Invalid scope for token" otherwise. -/
def decode_refresh_token (t : Token) (now : Nat) : DecodeResult :=
  match jwtDecode t now with
  | none => .unauthorized "Could not validate credentials"
  | some payload =>
    match payload.scope with
    | none => .keyErr
    | some s =>
      if s = "refresh_token" then .ok payload.sub
      else .unauthorized "Invalid scope for token"

/-- Embeds the token-decode prefix of `Auth.get_current_user`
(services.py:143-153): on `JWTError` raise the 401 credentials exception;
else look up `payload['scope']` (KeyError when absent) and accept only
scope `"access_token"`, raising the same 401 otherwise. -/
def decode_access_token (t : Token) (now : Nat) : DecodeResult :=
  match jwtDecode t now with
  | none => .unauthorized "Could not validate credentials"
  | some payload =>
    match payload.scope with
    | none => .keyErr
    | some s =>
      if s = "access_token" then .ok payload.sub
      else .unauthorized "Could not validate credentials"

/-- Embeds `Auth.get_email_from_token` (services.py:187-205): decode,
return `payload["sub"]`; a `JWTError` becomes HTTP 422 "Invalid token for
email verification".  Note: no scope check whatsoever. -/
def get_email_from_token (t : Token) (now : Nat) : Except (Nat × String) String :=
  match jwtDecode t now with
  | none => .error (422, "Invalid token for email verification")
  | some payload => .ok payload.sub

/-! ## User directory (src/auth/models.py, src/auth/crud.py) -/

/-- Embeds the `User` row (models.py:18-31), restricted to the fields the
session flows read or write.  `refresh_token` stores the (at most one) live
refresh token; `avatar` is the optional avatar URL. -/
structure User where
  id : Nat
  username : String
  email : String
  password : String
  avatar : Option String
  refresh_token : Option Token
  confirmed : Bool
deriving DecidableEq, Repr

/-- Persistent user table, in row order.  `email` is declared `unique` in
the schema; lookups and updates below consistently act on the first row
matching an email, which coincides with ORM behaviour on any table
satisfying that uniqueness constraint. -/
abbrev Db := List User

/-- Embeds `get_user_by_email` (auth/crud.py:11-23):
`select(User).filter_by(email=email)` then `scalar_one_or_none()`. -/
def get_user_by_email (email : String) (db : Db) : Option User :=
  db.find? (fun u => u.email = email)

/-- Embeds the effect of `update_token` (auth/crud.py:48-59): the ORM
object fetched for `email` gets `refresh_token = token` and the session is
committed, i.e. the first row with that email is updated in place. -/
def set_refresh_token (email : String) (t : Option Token) : Db → Db
  | [] => []
  | u :: us =>
    if u.email = email then { u with refresh_token := t } :: us
    else u :: set_refresh_token email t us

/-- Embeds the effect of `confirmed_email` (auth/crud.py:62-75): fetch the
user by email, set `confirmed = True`, commit. -/
def set_confirmed (email : String) : Db → Db
  | [] => []
  | u :: us =>
    if u.email = email then { u with confirmed := true } :: us
    else u :: set_confirmed email us

/-- Embeds the effect of `update_avatar_url` (users/crud.py:5-10): fetch
the user by email, set `avatar = url`, commit. -/
def set_avatar (email : String) (url : String) : Db → Db
  | [] => []
  | u :: us =>
    if u.email = email then { u with avatar := some url } :: us
    else u :: set_avatar email url us

/-! ## Auth routes (src/auth/routes.py) -/

/-- Outcome of the `login` route. -/
inductive LoginResult where
  | http (status : Nat) (detail : String)
  | ok (access_token : Token) (refresh_token : Token)
deriving DecidableEq, Repr

/-- Embeds the `login` route (auth/routes.py:58-69).  `verify` stands for
`auth_service.verify_password` (bcrypt verification, an external
primitive): `verify plain hashed` is its boolean outcome.  Returns the
route result together with the user table after the call. -/
def login (email password : String) (verify : String → String → Bool)
    (db : Db) (now : Nat) : LoginResult × Db :=
  match get_user_by_email email db with
  | none => (.http 401 "Invalid email", db)
  | some user =>
    if !user.confirmed then (.http 401 "Email not confirmed", db)
    else if !verify password user.password then (.http 401 "Invalid password", db)
    else
      let access := create_access_token email none now
      let refresh := create_refresh_token email none now
      (.ok access refresh, set_refresh_token user.email (some refresh) db)

/-- Outcome of the `refresh_token` route.  `pyError k` is an uncaught
Python exception of kind `k` escaping the handler (no `HTTPException`). -/
inductive RefreshResult where
  | http (status : Nat) (detail : String)
  | ok (access_token : Token) (refresh_token : Token)
  | pyError (kind : String)
deriving DecidableEq, Repr

/-- Embeds the `refresh_token` route (auth/routes.py:89-99): decode the
presented token with refresh scope, fetch the user by the decoded subject
(NO `None` guard — `user.refresh_token` on an absent user raises
`AttributeError`), clear the stored token and raise 401 on mismatch, else
issue a fresh pair and persist the new refresh token. -/
def refresh_route (t : Token) (db : Db) (now : Nat) : RefreshResult × Db :=
  match decode_refresh_token t now with
  | .unauthorized d => (.http 401 d, db)
  | .keyErr => (.pyError "KeyError", db)
  | .ok email =>
    match get_user_by_email email db with
    | none => (.pyError "AttributeError", db)
    | some user =>
      if user.refresh_token ≠ some t then
        (.http 401 "Invalid refresh token", set_refresh_token user.email none db)
      else
        let access := create_access_token email none now
        let refresh := create_refresh_token email none now
        (.ok access refresh, set_refresh_token user.email (some refresh) db)

/-- Outcome of the message-returning auth routes. -/
inductive MessageResult where
  | http (status : Nat) (detail : String)
  | msg (text : String)
  | pyError (kind : String)
deriving DecidableEq, Repr

/-- Embeds the `confirmed_email` route (auth/routes.py:120-127): extract
the email from the token, 400 "Verification error" when no such user,
distinct message when already confirmed, else set `confirmed`. -/
def confirmed_email_route (t : Token) (db : Db) (now : Nat) : MessageResult × Db :=
  match get_email_from_token t now with
  | .error e => (.http e.1 e.2, db)
  | .ok email =>
    match get_user_by_email email db with
    | none => (.http 400 "Verification error", db)
    | some user =>
      if user.confirmed then (.msg "Your email is already confirmed", db)
      else (.msg "Email confirmed", set_confirmed email db)

/-- Embeds the `request_email` route (auth/routes.py:149-155): the handler
reads `user.confirmed` BEFORE any `None` check, so an unknown email makes
it raise `AttributeError`; a confirmed user gets the already-confirmed
message; otherwise the confirmation email is dispatched in the background
and the generic message returned. -/
def request_email_route (email : String) (db : Db) : MessageResult :=
  match get_user_by_email email db with
  | none => .pyError "AttributeError"
  | some user =>
    if user.confirmed then .msg "Your email is already confirmed"
    else .msg "Check your email for confirmation."

/-! ## Calendar dates (Python `datetime.date` arithmetic) -/

/-- Calendar date, as Python's `datetime.date`. -/
structure Date where
  year : Nat
  month : Nat
  day : Nat
deriving DecidableEq, Repr

/-- Gregorian leap-year rule, as implemented by Python's `datetime`. -/
def isLeap (y : Nat) : Bool :=
  (y % 4 = 0 && y % 100 ≠ 0) || y % 400 = 0

/-- Length of a month in the Gregorian calendar (months outside 1..12 do
not arise for valid dates; the default keeps the function total). -/
def daysInMonth (y m : Nat) : Nat :=
  if m = 2 then (if isLeap y then 29 else 28)
  else if m = 4 ∨ m = 6 ∨ m = 9 ∨ m = 11 then 30
  else 31

/-- Successor day, as `date + timedelta(days=1)`. -/
def nextDay (d : Date) : Date :=
  if d.day < daysInMonth d.year d.month then ⟨d.year, d.month, d.day + 1⟩
  else if d.month < 12 then ⟨d.year, d.month + 1, 1⟩
  else ⟨d.year + 1, 1, 1⟩

/-- Date shifted forward, as `date + timedelta(days=n)`. -/
def addDays (d : Date) : Nat → Date
  | 0 => d
  | n + 1 => addDays (nextDay d) n

/-- Day/month components lie in range and the day fits the month. -/
def ValidDate (d : Date) : Prop :=
  1 ≤ d.month ∧ d.month ≤ 12 ∧ 1 ≤ d.day ∧ d.day ≤ daysInMonth d.year d.month

/-! ## Contact directory (src/auth/models.py, src/contacts/crud.py) -/

/-- Embeds the `Contact` row (models.py:33-47).  `user_id` is the foreign
key to the owning user; `filter_by(user=user)` in the queries below
compares precisely this ownership reference. -/
structure Contact where
  id : Nat
  first_name : String
  last_name : String
  email : String
  phone_number : String
  date_of_birth : Date
  additional_data : String
  user_id : Nat
deriving DecidableEq, Repr

/-- Persistent contact table, in row order. -/
abbrev CDb := List Contact

/-- Embeds `get_contacts` (contacts/crud.py:12-29):
`filter_by(user=user).offset(offset).limit(limit)`. -/
def get_contacts (limit offset : Nat) (cdb : CDb) (uid : Nat) : List Contact :=
  (((cdb.filter (fun c => c.user_id = uid)).drop offset).take limit)

/-- Embeds `get_contact` (contacts/crud.py:32-47):
`filter_by(id=contact_id, user=user)` then `scalar_one_or_none()`. -/
def get_contact (contact_id : Nat) (cdb : CDb) (uid : Nat) : Option Contact :=
  cdb.find? (fun c => c.id = contact_id && c.user_id = uid)

/-- Field payload of a `ContactSchema` request body. -/
structure ContactBody where
  first_name : String
  last_name : String
  email : String
  phone_number : String
  date_of_birth : Date
  additional_data : String
deriving DecidableEq, Repr

/-- Embeds the field assignments of `update_contact`
(contacts/crud.py:88-94) on one row. -/
def applyBody (b : ContactBody) (c : Contact) : Contact :=
  { c with
    first_name := b.first_name
    last_name := b.last_name
    email := b.email
    phone_number := b.phone_number
    date_of_birth := b.date_of_birth
    additional_data := b.additional_data }

/-- Replace the first row satisfying `p` by its image under `f` — the
effect of mutating the one ORM object a `scalar_one_or_none()` fetch
returned and committing. -/
def update_first (p : Contact → Bool) (f : Contact → Contact) : CDb → CDb
  | [] => []
  | c :: cs => if p c then f c :: cs else c :: update_first p f cs

/-- Remove the first row satisfying `p` — the effect of `db.delete` on the
one fetched ORM object. -/
def remove_first (p : Contact → Bool) : CDb → CDb
  | [] => []
  | c :: cs => if p c then cs else c :: remove_first p cs

/-- Embeds `update_contact` (contacts/crud.py:70-97): fetch by
`(id, user)`, assign the body's fields and commit when found; return the
(possibly absent) contact and the table after the call. -/
def update_contact (contact_id : Nat) (b : ContactBody) (cdb : CDb) (uid : Nat) :
    Option Contact × CDb :=
  match get_contact contact_id cdb uid with
  | none => (none, cdb)
  | some c =>
    (some (applyBody b c),
     update_first (fun x => x.id = contact_id && x.user_id = uid) (applyBody b) cdb)

/-- Embeds `delete_contact` (contacts/crud.py:100-119): fetch by
`(id, user)`, delete and commit when found; return the (possibly absent)
contact and the table after the call. -/
def delete_contact (contact_id : Nat) (cdb : CDb) (uid : Nat) :
    Option Contact × CDb :=
  match get_contact contact_id cdb uid with
  | none => (none, cdb)
  | some c =>
    (some c, remove_first (fun x => x.id = contact_id && x.user_id = uid) cdb)

/-- Case-insensitive substring test, modelling SQL `ILIKE '%query%'`. -/
def isSubstrCI (q s : String) : Bool :=
  let ql := q.toLower.toList
  let sl := s.toLower.toList
  (List.range (sl.length + 1)).any (fun i => ql.isPrefixOf (sl.drop i))

/-- Embeds `search_contacts` (contacts/crud.py:122-147): case-insensitive
substring match on first name, last name or email, conjoined with the
ownership filter. -/
def search_contacts (query : String) (cdb : CDb) (uid : Nat) : List Contact :=
  cdb.filter (fun c =>
    (isSubstrCI query c.first_name || isSubstrCI query c.last_name ||
     isSubstrCI query c.email) && c.user_id = uid)

/-- Embeds the birthday-window condition of `congratulate`
(contacts/crud.py:164-182), with `cur` the current date and `fin` the
window end `current_date + timedelta(days=7)`:
month of birth equals the current month with the day between today's and
the end's day-of-month, or month of birth equals the end month with the
day at most the end's day-of-month, or the birthday is exactly today. -/
def congratulateCond (dob : Date) (cur fin : Date) : Bool :=
  (dob.month = cur.month && dob.day ≥ cur.day && dob.day ≤ fin.day) ||
  (dob.month = fin.month && dob.day ≤ fin.day) ||
  (dob.month = cur.month && dob.day = cur.day)

/-- Insert a contact into a list kept ascending by day-of-month of the
date of birth (the `order_by(extract('day', ...))` sort key). -/
def insertByDay (c : Contact) : List Contact → List Contact
  | [] => [c]
  | x :: xs =>
    if c.date_of_birth.day ≤ x.date_of_birth.day then c :: x :: xs
    else x :: insertByDay c xs

/-- Sort by day-of-month of the date of birth, ascending. -/
def sortByDay : List Contact → List Contact
  | [] => []
  | c :: cs => insertByDay c (sortByDay cs)

/-- Embeds `congratulate` (contacts/crud.py:150-188): filter by the
birthday-window condition and ownership, order by day-of-month of the
date of birth ascending. -/
def congratulate (cdb : CDb) (uid : Nat) (today : Date) : List Contact :=
  let fin := addDays today 7
  sortByDay (cdb.filter (fun c =>
    congratulateCond c.date_of_birth today fin && c.user_id = uid))

/-! ## Contact routes (src/contacts/routes.py) -/

/-- Embeds the `get_contact` route (contacts/routes.py:51-68): 404 "NOT
FOUND" when the per-user lookup is empty, else the contact. -/
def get_contact_route (contact_id : Nat) (cdb : CDb) (uid : Nat) :
    Except (Nat × String) Contact :=
  match get_contact contact_id cdb uid with
  | none => .error (404, "NOT FOUND")
  | some c => .ok c

/-- Embeds the `update_contact` route (contacts/routes.py:96-115): 404
"NOT FOUND" when the per-user lookup is empty, else the updated contact. -/
def update_contact_route (contact_id : Nat) (b : ContactBody) (cdb : CDb) (uid : Nat) :
    Except (Nat × String) Contact × CDb :=
  match update_contact contact_id b cdb uid with
  | (none, cdb') => (.error (404, "NOT FOUND"), cdb')
  | (some c, cdb') => (.ok c, cdb')

/-- Embeds the `delete_contact` route (contacts/routes.py:124-139): the
handler calls the crud delete and returns its result unconditionally under
the declared `204 NO CONTENT` status — there is no missing-contact check
and no 404 path.  The first component is the HTTP status produced. -/
def delete_contact_route (contact_id : Nat) (cdb : CDb) (uid : Nat) :
    Nat × CDb :=
  let r := delete_contact contact_id cdb uid
  (204, r.2)

/-! ## User cache and write paths that touch it
(services.py `Auth.cache`, users/routes.py avatar route) -/

/-- Redis-backed user cache: email key to the pickled `User` snapshot.
The 300-second expiry set alongside each write is time-based eviction by
the store, orthogonal to the write-path bookkeeping modelled here. -/
abbrev Cache := List (String × User)

/-- Embeds `cache.set(key, pickle.dumps(user))`: overwrite the entry for
`key`, creating it when absent. -/
def cache_set (key : String) (u : User) : Cache → Cache
  | [] => [(key, u)]
  | e :: es => if e.1 = key then (key, u) :: es else e :: cache_set key u es

/-- Embeds `cache.get(key)`. -/
def cache_get (key : String) (c : Cache) : Option User :=
  match c.find? (fun e => e.1 = key) with
  | none => none
  | some e => some e.2

/-- Combined persistent state the session flows act on: the user table
plus the user cache. -/
structure AppState where
  db : Db
  cache : Cache

/-- The `login` route lifted to the combined state: the handler
(auth/routes.py:58-69) performs no cache operation whatsoever, so the
cache component passes through unchanged. -/
def login_app (email password : String) (verify : String → String → Bool)
    (st : AppState) (now : Nat) : LoginResult × AppState :=
  let r := login email password verify st.db now
  (r.1, { db := r.2, cache := st.cache })

/-- The `refresh_token` route lifted to the combined state: the handler
(auth/routes.py:89-99) performs no cache operation. -/
def refresh_app (t : Token) (st : AppState) (now : Nat) : RefreshResult × AppState :=
  let r := refresh_route t st.db now
  (r.1, { db := r.2, cache := st.cache })

/-- The `confirmed_email` route lifted to the combined state: the handler
(auth/routes.py:120-127) performs no cache operation. -/
def confirmed_email_app (t : Token) (st : AppState) (now : Nat) :
    MessageResult × AppState :=
  let r := confirmed_email_route t st.db now
  (r.1, { db := r.2, cache := st.cache })

/-- Embeds the avatar `PATCH /users/avatar` handler (users/routes.py:42-55)
after authentication resolved the calling user: upload the file (external;
`res_url` is the URL the asset host returned), persist it via
`update_avatar_url`, then overwrite the cache entry for the user's email
with the refreshed user object and set its 300-second expiry. -/
def update_avatar_app (email res_url : String) (st : AppState) :
    Except String User × AppState :=
  match get_user_by_email email st.db with
  | none => (.error "AttributeError", st)
  | some u =>
    let u' := { u with avatar := some res_url }
    (.ok u', { db := set_avatar email res_url st.db, cache := cache_set email u' st.cache })

/-- Outcome of the authenticated-user resolution. -/
inductive CurrentUserResult where
  | http (status : Nat) (detail : String)
  | ok (u : User)
  | pyError (kind : String)
deriving DecidableEq, Repr

/-- Embeds the body of `Auth.get_current_user` (services.py:137-169)
lifted to the combined state: decode the bearer token with access scope,
serve the pickled snapshot on a cache hit, else fall back to the user
table (401 when absent there) and repopulate the cache. -/
def get_current_user_app (t : Token) (st : AppState) (now : Nat) :
    CurrentUserResult × AppState :=
  match decode_access_token t now with
  | .unauthorized _ => (.http 401 "Could not validate credentials", st)
  | .keyErr => (.pyError "KeyError", st)
  | .ok email =>
    match cache_get email st.cache with
    | some u => (.ok u, st)
    | none =>
      match get_user_by_email email st.db with
      | none => (.http 401 "Could not validate credentials", st)
      | some u =>
        (.ok u, { db := st.db, cache := cache_set email u st.cache })

/-! ## Helper lemmas -/

/-- Looking an email up after `update_token` stored a token on the user
previously found under that email yields that user with the new token. -/
theorem get_set_refresh (email : String) (v : Option Token) (db : Db) (u : User)
    (h : get_user_by_email email db = some u) :
    get_user_by_email email (set_refresh_token u.email v db)
      = some { u with refresh_token := v } := by
  have hue : u.email = email := by simpa using List.find?_some h
  subst hue
  induction db with
  | nil => simp [get_user_by_email, List.find?] at h
  | cons x xs ih =>
    by_cases hx : x.email = u.email
    · have hux : u = x := by
        simp [get_user_by_email, List.find?, hx] at h
        exact h.symm
      subst hux
      simp [set_refresh_token, hx, get_user_by_email, List.find?]
    · have h' : get_user_by_email u.email xs = some u := by
        simp [get_user_by_email, List.find?, hx] at h ⊢
        exact h
      have e1 : set_refresh_token u.email v (x :: xs) = x :: set_refresh_token u.email v xs := by
        simp [set_refresh_token, hx]
      have e2 : get_user_by_email u.email (x :: set_refresh_token u.email v xs)
          = get_user_by_email u.email (set_refresh_token u.email v xs) := by
        simp [get_user_by_email, List.find?, hx]
      rw [e1, e2, ih h']

/-- Reading a key just overwritten in the cache yields the new snapshot. -/
theorem cache_get_set (key : String) (u : User) (c : Cache) :
    cache_get key (cache_set key u c) = some u := by
  induction c with
  | nil => simp [cache_set, cache_get, List.find?]
  | cons e es ih =>
    by_cases he : e.1 = key
    · simp [cache_set, he, cache_get, List.find?]
    · simp [cache_set, he, cache_get, List.find?] at ih ⊢
      exact ih

/-! ## C1 — token scope isolation -/

/-- C1 (counterexample): an access token issued at time 0 is accepted by
`get_email_from_token` at time 60 and yields its subject, instead of
failing with a wrong-scope error — the email-confirmation decode performs
no scope check. -/
theorem token_scope_isolation_cex :
    get_email_from_token (create_access_token "user@example.com" none 0) 60
      = .ok "user@example.com" := rfl

/-- C1 (amended): scope isolation holds between the access and refresh
scopes — a live access token fails the refresh-scope decode with 401
"Invalid scope for token" and a live refresh token fails the access-scope
check with the 401 credentials error — but email-confirmation tokens are
outside the discipline: `get_email_from_token` accepts live access and
refresh tokens (returning their subject), and a decode expecting the
access or refresh scope raises an uncaught `KeyError` on an email token
(whose payload has no `scope` entry) rather than a wrong-scope failure. -/
theorem token_scope_isolation (sub : String) (delta : Option Nat) (issued now : Nat)
    (hA : now < (create_access_token sub delta issued).exp)
    (hR : now < (create_refresh_token sub delta issued).exp)
    (hE : now < (create_email_token sub issued).exp) :
    decode_refresh_token (create_access_token sub delta issued) now
      = .unauthorized "Invalid scope for token" ∧
    decode_access_token (create_refresh_token sub delta issued) now
      = .unauthorized "Could not validate credentials" ∧
    get_email_from_token (create_access_token sub delta issued) now = .ok sub ∧
    get_email_from_token (create_refresh_token sub delta issued) now = .ok sub ∧
    decode_refresh_token (create_email_token sub issued) now = .keyErr ∧
    decode_access_token (create_email_token sub issued) now = .keyErr := by
  refine ⟨?_, ?_, ?_, ?_, ?_, ?_⟩
  · simp only [decode_refresh_token, jwtDecode]
    rw [if_neg (Nat.not_le.mpr hA)]
    simp [create_access_token]
  · simp only [decode_access_token, jwtDecode]
    rw [if_neg (Nat.not_le.mpr hR)]
    simp [create_refresh_token]
  · simp only [get_email_from_token, jwtDecode]
    rw [if_neg (Nat.not_le.mpr hA)]
    simp [create_access_token]
  · simp only [get_email_from_token, jwtDecode]
    rw [if_neg (Nat.not_le.mpr hR)]
    simp [create_refresh_token]
  · simp only [decode_refresh_token, jwtDecode]
    rw [if_neg (Nat.not_le.mpr hE)]
    simp [create_email_token]
  · simp only [decode_access_token, jwtDecode]
    rw [if_neg (Nat.not_le.mpr hE)]
    simp [create_email_token]

/-- Witness for `token_scope_isolation` at a concrete subject, the default
TTLs, issue time 0 and decode time 60. -/
theorem token_scope_isolation_witness :
    decode_refresh_token (create_access_token "u@x.com" none 0) 60
      = .unauthorized "Invalid scope for token" ∧
    decode_access_token (create_refresh_token "u@x.com" none 0) 60
      = .unauthorized "Could not validate credentials" ∧
    get_email_from_token (create_access_token "u@x.com" none 0) 60 = .ok "u@x.com" ∧
    get_email_from_token (create_refresh_token "u@x.com" none 0) 60 = .ok "u@x.com" ∧
    decode_refresh_token (create_email_token "u@x.com" 0) 60 = .keyErr ∧
    decode_access_token (create_email_token "u@x.com" 0) 60 = .keyErr :=
  token_scope_isolation "u@x.com" none 0 60 (by decide) (by decide) (by decide)

/-! ## C7 — request_email on an unknown email -/

/-- C7: `request_email` with an email that has no user record dereferences
`user.confirmed` on `None` and raises an uncaught `AttributeError` instead
of returning `NotFound` or acting as a no-op. -/
theorem request_email_unknown_email_error :
    request_email_route "ghost@example.com" ([] : Db) = .pyError "AttributeError" := by
  decide

/-! ## C8 — missing-contact status mapping -/

/-- C8 (counterexample): deleting contact id 1 as user 1 on an empty
contact table — an id that does not exist under the calling user — yields
HTTP 204, not the 404 the claim requires. -/
theorem missing_contact_delete_cex :
    delete_contact_route 1 ([] : CDb) 1 = (204, ([] : CDb)) ∧
    (delete_contact_route 1 ([] : CDb) 1).1 ≠ 404 := by decide

/-- C8 (amended): `get` and `update` of a contact id that does not exist
under the calling user fail with 404 "NOT FOUND"; the `delete` route has
no missing-contact guard and replies with its declared 204 status whether
or not the contact exists, so successful deletion yields 204 but deletion
of a missing contact yields 204 as well. -/
theorem missing_contact_status_mapping (cid : Nat) (b : ContactBody) (cdb : CDb) (uid : Nat)
    (hmissing : get_contact cid cdb uid = none) :
    get_contact_route cid cdb uid = .error (404, "NOT FOUND") ∧
    (update_contact_route cid b cdb uid).1 = .error (404, "NOT FOUND") ∧
    (∀ cdb' : CDb, (delete_contact_route cid cdb' uid).1 = 204) := by
  refine ⟨?_, ?_, fun cdb' => rfl⟩
  · simp [get_contact_route, hmissing]
  · simp [update_contact_route, update_contact, hmissing]

/-- Witness for `missing_contact_status_mapping` on an empty contact
table. -/
theorem missing_contact_status_mapping_witness :
    get_contact_route 1 ([] : CDb) 1 = .error (404, "NOT FOUND") ∧
    (update_contact_route 1 ⟨"f", "l", "e", "p", ⟨2000, 1, 1⟩, "d"⟩ ([] : CDb) 1).1
      = .error (404, "NOT FOUND") ∧
    (∀ cdb' : CDb, (delete_contact_route 1 cdb' 1).1 = 204) :=
  missing_contact_status_mapping 1 ⟨"f", "l", "e", "p", ⟨2000, 1, 1⟩, "d"⟩ ([] : CDb) 1 (by decide)

/-! ## C10 — refresh with a live token for an absent user -/

/-- C10: when the presented token decodes with refresh scope but its
subject has no user record, the `refresh_token` handler dereferences
`None` (`user.refresh_token`) and an uncaught `AttributeError` escapes —
there is no guard for the absent-user case and no 401. -/
theorem refresh_missing_user_unhandled (t : Token) (db : Db) (now : Nat)
    (hscope : t.scope = some "refresh_token") (hlive : now < t.exp)
    (habsent : get_user_by_email t.sub db = none) :
    refresh_route t db now = (.pyError "AttributeError", db) := by
  simp [refresh_route, decode_refresh_token, jwtDecode, Nat.not_le.mpr hlive,
    hscope, habsent]

/-- Witness for `refresh_missing_user_unhandled`: a live refresh token for
`"ghost@example.com"` against an empty user table. -/
theorem refresh_missing_user_unhandled_witness :
    refresh_route { sub := "ghost@example.com", iat := 0, exp := 604800,
                    scope := some "refresh_token" } ([] : Db) 60
      = (.pyError "AttributeError", ([] : Db)) :=
  refresh_missing_user_unhandled
    { sub := "ghost@example.com", iat := 0, exp := 604800, scope := some "refresh_token" }
    ([] : Db) 60 (by decide) (by decide) (by decide)

/-! ## C3 — defensive revocation on refresh mismatch -/

/-- Concrete refresh token used by the witnesses: subject `"a@x.com"`,
issued at 0, live for 7 days. -/
def sampleRefreshTok : Token :=
  { sub := "a@x.com", iat := 0, exp := 604800, scope := some "refresh_token" }

/-- Concrete confirmed user whose stored refresh token is
`sampleRefreshTok`. -/
def sampleUserMatch : User :=
  { id := 1, username := "alice", email := "a@x.com", password := "HASH",
    avatar := none, refresh_token := some sampleRefreshTok, confirmed := true }

/-- Concrete confirmed user with no stored refresh token. -/
def sampleUserStale : User :=
  { id := 1, username := "alice", email := "a@x.com", password := "HASH",
    avatar := none, refresh_token := none, confirmed := true }

/-- C3: when the presented token decodes with refresh scope and the
subject's user record exists, a mismatch with the stored refresh token
clears the stored token (sets it to `None`) and fails 401 "Invalid refresh
token", while a match issues a fresh access/refresh pair and persists the
new refresh token on the user record. -/
theorem refresh_mismatch_revocation (t : Token) (db : Db) (now : Nat) (u : User)
    (hscope : t.scope = some "refresh_token") (hlive : now < t.exp)
    (hget : get_user_by_email t.sub db = some u) :
    (u.refresh_token ≠ some t →
      refresh_route t db now
        = (.http 401 "Invalid refresh token", set_refresh_token u.email none db) ∧
      get_user_by_email t.sub (refresh_route t db now).2
        = some { u with refresh_token := none }) ∧
    (u.refresh_token = some t →
      refresh_route t db now
        = (.ok (create_access_token t.sub none now) (create_refresh_token t.sub none now),
           set_refresh_token u.email (some (create_refresh_token t.sub none now)) db) ∧
      get_user_by_email t.sub (refresh_route t db now).2
        = some { u with refresh_token := some (create_refresh_token t.sub none now) }) := by
  have hdec : decode_refresh_token t now = .ok t.sub := by
    simp only [decode_refresh_token, jwtDecode]
    rw [if_neg (Nat.not_le.mpr hlive)]
    simp [hscope]
  constructor
  · intro hne
    have hr : refresh_route t db now
        = (.http 401 "Invalid refresh token", set_refresh_token u.email none db) := by
      simp [refresh_route, hdec, hget, hne]
    exact ⟨hr, by rw [hr]; exact get_set_refresh t.sub none db u hget⟩
  · intro heq
    have hr : refresh_route t db now
        = (.ok (create_access_token t.sub none now) (create_refresh_token t.sub none now),
           set_refresh_token u.email (some (create_refresh_token t.sub none now)) db) := by
      simp [refresh_route, hdec, hget, heq]
    exact ⟨hr, by
      rw [hr]
      exact get_set_refresh t.sub (some (create_refresh_token t.sub none now)) db u hget⟩

/-- Witness for `refresh_mismatch_revocation`: the mismatch branch on a
user whose stored token is absent, and the match branch on a user storing
exactly the presented token. -/
theorem refresh_mismatch_revocation_witness :
    (refresh_route sampleRefreshTok [sampleUserStale] 5
       = (.http 401 "Invalid refresh token",
          set_refresh_token sampleUserStale.email none [sampleUserStale])) ∧
    (refresh_route sampleRefreshTok [sampleUserMatch] 5
       = (.ok (create_access_token "a@x.com" none 5) (create_refresh_token "a@x.com" none 5),
          set_refresh_token sampleUserMatch.email
            (some (create_refresh_token "a@x.com" none 5)) [sampleUserMatch])) :=
  ⟨((refresh_mismatch_revocation sampleRefreshTok [sampleUserStale] 5 sampleUserStale
      (by decide) (by decide) (by decide)).1 (by decide)).1,
   ((refresh_mismatch_revocation sampleRefreshTok [sampleUserMatch] 5 sampleUserMatch
      (by decide) (by decide) (by decide)).2 (by decide)).1⟩

/-! ## C2 — refresh rotation -/

/-- C2 (counterexample): rotation within the second of issuance re-issues
a byte-identical refresh token (`jwt.encode` is deterministic and
`iat`/`exp` have second granularity), so presenting the original token
again still succeeds.  Here the stored token was issued at time 0, refresh
is called at time 0 (success, persisting an identical token), and a second
refresh with the original token at time 0 succeeds instead of failing
`Unauthorized`. -/
theorem refresh_rotation_cex :
    (refresh_route sampleRefreshTok [sampleUserMatch] 0).1
      = .ok { sub := "a@x.com", iat := 0, exp := 900, scope := some "access_token" }
           sampleRefreshTok ∧
    (refresh_route sampleRefreshTok
        (refresh_route sampleRefreshTok [sampleUserMatch] 0).2 0).1
      = .ok { sub := "a@x.com", iat := 0, exp := 900, scope := some "access_token" }
           sampleRefreshTok := by decide

/-- C2 (amended): after one successful `refresh` with token `T` that
persisted a newly issued refresh token `T'`, a subsequent `refresh`
presenting `T` fails 401 — with "Could not validate credentials" when `T`
has meanwhile expired and "Invalid refresh token" otherwise — provided
`T' ≠ T`, i.e. provided the rotation did not happen within the very second
of `T`'s issuance (in which case the deterministic codec re-issues `T`
itself and the original token keeps working). -/
theorem refresh_rotation (t : Token) (db : Db) (now1 now2 : Nat) (a r : Token) (db1 : Db)
    (h : refresh_route t db now1 = (.ok a r, db1)) (hne : r ≠ t) :
    (refresh_route t db1 now2).1 = .http 401 "Could not validate credentials" ∨
    (refresh_route t db1 now2).1 = .http 401 "Invalid refresh token" := by
  by_cases hexp : t.exp ≤ now1
  · simp [refresh_route, decode_refresh_token, jwtDecode, hexp] at h
  cases hsc : t.scope with
  | none => simp [refresh_route, decode_refresh_token, jwtDecode, hexp, hsc] at h
  | some s =>
    by_cases hs : s = "refresh_token"
    case neg => simp [refresh_route, decode_refresh_token, jwtDecode, hexp, hsc, hs] at h
    subst hs
    cases hget : get_user_by_email t.sub db with
    | none => simp [refresh_route, decode_refresh_token, jwtDecode, hexp, hsc, hget] at h
    | some u =>
      by_cases hmat : u.refresh_token = some t
      case neg => simp [refresh_route, decode_refresh_token, jwtDecode, hexp, hsc, hget, hmat] at h
      have hred : refresh_route t db now1
          = (.ok (create_access_token t.sub none now1) (create_refresh_token t.sub none now1),
             set_refresh_token u.email (some (create_refresh_token t.sub none now1)) db) := by
        simp [refresh_route, decode_refresh_token, jwtDecode, hexp, hsc, hget, hmat]
      rw [hred] at h
      simp only [Prod.mk.injEq, RefreshResult.ok.injEq] at h
      obtain ⟨⟨_, hr⟩, hdb⟩ := h
      by_cases hexp2 : t.exp ≤ now2
      · left
        simp [refresh_route, decode_refresh_token, jwtDecode, hexp2]
      · right
        have hget2 : get_user_by_email t.sub db1
            = some { u with refresh_token := some r } := by
          rw [← hdb, ← hr]
          exact get_set_refresh t.sub (some (create_refresh_token t.sub none now1)) db u hget
        have hner : (some r : Option Token) ≠ some t := by simpa using hne
        simp [refresh_route, decode_refresh_token, jwtDecode, hexp2, hsc, hget2, hner]

/-- Witness for `refresh_rotation`: stored token issued at time 0, first
refresh at time 5 (the rotated token differs), second refresh with the
original token at time 9 fails 401. -/
theorem refresh_rotation_witness :
    (refresh_route sampleRefreshTok
        (refresh_route sampleRefreshTok [sampleUserMatch] 5).2 9).1
      = .http 401 "Could not validate credentials" ∨
    (refresh_route sampleRefreshTok
        (refresh_route sampleRefreshTok [sampleUserMatch] 5).2 9).1
      = .http 401 "Invalid refresh token" :=
  refresh_rotation sampleRefreshTok [sampleUserMatch] 5 9
    (create_access_token "a@x.com" none 5) (create_refresh_token "a@x.com" none 5)
    (set_refresh_token "a@x.com" (some (create_refresh_token "a@x.com" none 5))
      [sampleUserMatch])
    (by decide) (by decide)

/-! ## C4 — login case analysis -/

/-- C4: `login` fails 401 "Invalid email" when no user exists for the
email; fails 401 "Email not confirmed" for an unconfirmed user regardless
of the password; fails 401 "Invalid password" when bcrypt verification
rejects; and otherwise returns a fresh access/refresh pair and persists
the refresh token on the user record. -/
theorem login_case_analysis (email password : String) (verify : String → String → Bool)
    (db : Db) (now : Nat) :
    (get_user_by_email email db = none →
      login email password verify db now = (.http 401 "Invalid email", db)) ∧
    (∀ u, get_user_by_email email db = some u → u.confirmed = false →
      login email password verify db now = (.http 401 "Email not confirmed", db)) ∧
    (∀ u, get_user_by_email email db = some u → u.confirmed = true →
      verify password u.password = false →
      login email password verify db now = (.http 401 "Invalid password", db)) ∧
    (∀ u, get_user_by_email email db = some u → u.confirmed = true →
      verify password u.password = true →
      login email password verify db now
        = (.ok (create_access_token email none now) (create_refresh_token email none now),
           set_refresh_token u.email (some (create_refresh_token email none now)) db) ∧
      get_user_by_email email (login email password verify db now).2
        = some { u with refresh_token := some (create_refresh_token email none now) }) := by
  refine ⟨?_, ?_, ?_, ?_⟩
  · intro h
    simp [login, h]
  · intro u hu hc
    simp [login, hu, hc]
  · intro u hu hc hv
    simp [login, hu, hc, hv]
  · intro u hu hc hv
    have hl : login email password verify db now
        = (.ok (create_access_token email none now) (create_refresh_token email none now),
           set_refresh_token u.email (some (create_refresh_token email none now)) db) := by
      simp [login, hu, hc, hv]
    exact ⟨hl, by
      rw [hl]
      exact get_set_refresh email (some (create_refresh_token email none now)) db u hu⟩

/-- Witness for `login_case_analysis`: all four branches at concrete
inputs — unknown email, the unconfirmed variant of the sample user, the
confirmed sample user with a rejecting verifier, and the confirmed sample
user with an accepting verifier. -/
theorem login_case_analysis_witness :
    login "ghost@x.com" "pw" (fun _ h => h = "HASH") ([] : Db) 3
      = (.http 401 "Invalid email", ([] : Db)) ∧
    login "a@x.com" "pw" (fun _ h => h = "HASH")
      [{ sampleUserStale with confirmed := false }] 3
      = (.http 401 "Email not confirmed", [{ sampleUserStale with confirmed := false }]) ∧
    login "a@x.com" "pw" (fun _ _ => false) [sampleUserStale] 3
      = (.http 401 "Invalid password", [sampleUserStale]) ∧
    login "a@x.com" "pw" (fun _ h => h = "HASH") [sampleUserStale] 3
      = (.ok (create_access_token "a@x.com" none 3) (create_refresh_token "a@x.com" none 3),
         set_refresh_token sampleUserStale.email
           (some (create_refresh_token "a@x.com" none 3)) [sampleUserStale]) :=
  ⟨(login_case_analysis "ghost@x.com" "pw" (fun _ h => h = "HASH") ([] : Db) 3).1 (by decide),
   (login_case_analysis "a@x.com" "pw" (fun _ h => h = "HASH")
      [{ sampleUserStale with confirmed := false }] 3).2.1
      { sampleUserStale with confirmed := false } (by decide) (by decide),
   (login_case_analysis "a@x.com" "pw" (fun _ _ => false) [sampleUserStale] 3).2.2.1
      sampleUserStale (by decide) (by decide) (by decide),
   ((login_case_analysis "a@x.com" "pw" (fun _ h => h = "HASH") [sampleUserStale] 3).2.2.2
      sampleUserStale (by decide) (by decide) (by decide)).1⟩

/-! ## C5 — cross-user contact isolation -/

/-- Membership in an insertion-by-day list. -/
theorem mem_insertByDay (y c : Contact) (l : List Contact) :
    y ∈ insertByDay c l ↔ y = c ∨ y ∈ l := by
  induction l with
  | nil => simp [insertByDay]
  | cons x xs ih =>
    by_cases hc : c.date_of_birth.day ≤ x.date_of_birth.day
    · simp [insertByDay, hc]
    · simp [insertByDay, hc, ih]
      tauto

/-- Sorting by day-of-month preserves membership. -/
theorem mem_sortByDay (y : Contact) (l : List Contact) :
    y ∈ sortByDay l ↔ y ∈ l := by
  induction l with
  | nil => simp [sortByDay]
  | cons x xs ih =>
    simp [sortByDay, mem_insertByDay, ih]

/-- A row not matched by the predicate survives `update_first`. -/
theorem mem_update_first (p : Contact → Bool) (f : Contact → Contact)
    (l : List Contact) (c : Contact) (hc : c ∈ l) (hpc : p c = false) :
    c ∈ update_first p f l := by
  induction l with
  | nil => simp at hc
  | cons x xs ih =>
    by_cases hx : p x
    · simp [update_first, hx]
      rcases List.mem_cons.mp hc with h | h
      · subst h
        rw [hx] at hpc
        simp at hpc
      · exact Or.inr h
    · simp only [update_first, Bool.not_eq_true] at hx
      simp [update_first, hx]
      rcases List.mem_cons.mp hc with h | h
      · exact Or.inl h
      · exact Or.inr (ih h)

/-- A row not matched by the predicate survives `remove_first`. -/
theorem mem_remove_first (p : Contact → Bool)
    (l : List Contact) (c : Contact) (hc : c ∈ l) (hpc : p c = false) :
    c ∈ remove_first p l := by
  induction l with
  | nil => simp at hc
  | cons x xs ih =>
    by_cases hx : p x
    · simp [remove_first, hx]
      rcases List.mem_cons.mp hc with h | h
      · subst h
        rw [hx] at hpc
        simp at hpc
      · exact h
    · simp only [Bool.not_eq_true] at hx
      simp [remove_first, hx]
      rcases List.mem_cons.mp hc with h | h
      · exact Or.inl h
      · exact Or.inr (ih h)

/-- C5: a contact id that exists only under user B is invisible to a
distinct user A (`get_contact` returns absent, which the route maps to
404); every query operation returns only contacts owned by the calling
user; and `update_contact`/`delete_contact` leave every row owned by
another user untouched in the table. -/
theorem contact_isolation (uidA uidB cid lim off : Nat) (cdb : CDb) (q : String)
    (b : ContactBody) (today : Date)
    (hne : uidA ≠ uidB)
    (hown : ∀ c ∈ cdb, c.id = cid → c.user_id = uidB) :
    get_contact cid cdb uidA = none ∧
    (∀ c ∈ get_contacts lim off cdb uidA, c.user_id = uidA) ∧
    (∀ c ∈ search_contacts q cdb uidA, c.user_id = uidA) ∧
    (∀ c ∈ congratulate cdb uidA today, c.user_id = uidA) ∧
    (∀ c ∈ cdb, c.user_id ≠ uidA → c ∈ (update_contact cid b cdb uidA).2) ∧
    (∀ c ∈ cdb, c.user_id ≠ uidA → c ∈ (delete_contact cid cdb uidA).2) := by
  refine ⟨?_, ?_, ?_, ?_, ?_, ?_⟩
  · rw [get_contact, List.find?_eq_none]
    intro c hc
    simp only [Bool.and_eq_true, decide_eq_true_eq, not_and]
    intro hid
    exact fun huid => hne (huid ▸ (hown c hc hid).symm ▸ rfl)
  · intro c hc
    have := List.mem_of_mem_take hc
    have := List.mem_of_mem_drop this
    have := List.mem_filter.mp this
    simpa using this.2
  · intro c hc
    have := List.mem_filter.mp hc
    simp only [Bool.and_eq_true, decide_eq_true_eq] at this
    exact this.2.2
  · intro c hc
    have hmem := (mem_sortByDay c _).mp hc
    have := List.mem_filter.mp hmem
    simp only [Bool.and_eq_true, decide_eq_true_eq] at this
    exact this.2.2
  · intro c hc hcuid
    rw [update_contact]
    cases hg : get_contact cid cdb uidA with
    | none => simpa using hc
    | some c0 =>
      simp only
      apply mem_update_first _ _ _ _ hc
      simp [hcuid]
  · intro c hc hcuid
    rw [delete_contact]
    cases hg : get_contact cid cdb uidA with
    | none => simpa using hc
    | some c0 =>
      simp only
      apply mem_remove_first _ _ _ hc
      simp [hcuid]

/-- Concrete contact owned by user 2. -/
def sampleContactB : Contact :=
  { id := 5, first_name := "Bob", last_name := "B", email := "b@x.com",
    phone_number := "1", date_of_birth := ⟨1990, 6, 15⟩, additional_data := "",
    user_id := 2 }

/-- Witness for `contact_isolation`: user 1 against a table holding only
contact id 5 owned by user 2. -/
theorem contact_isolation_witness :
    get_contact 5 [sampleContactB] 1 = none ∧
    (∀ c ∈ get_contacts 10 0 [sampleContactB] 1, c.user_id = 1) ∧
    (∀ c ∈ search_contacts "b" [sampleContactB] 1, c.user_id = 1) ∧
    (∀ c ∈ congratulate [sampleContactB] 1 ⟨2026, 6, 10⟩, c.user_id = 1) ∧
    (∀ c ∈ [sampleContactB], c.user_id ≠ 1 →
      c ∈ (update_contact 5 ⟨"f", "l", "e", "p", ⟨2000, 1, 1⟩, "d"⟩ [sampleContactB] 1).2) ∧
    (∀ c ∈ [sampleContactB], c.user_id ≠ 1 → c ∈ (delete_contact 5 [sampleContactB] 1).2) :=
  contact_isolation 1 2 5 10 0 [sampleContactB] "b" ⟨"f", "l", "e", "p", ⟨2000, 1, 1⟩, "d"⟩
    ⟨2026, 6, 10⟩ (by decide) (by decide)

/-! ## C6 — cache behaviour of the user write paths -/

/-- C6 (counterexample): with the user cached, a successful login rotates
the stored refresh token in the user table but neither invalidates nor
overwrites the cache entry, and the authenticated-user lookup then serves
the stale snapshot (whose `refresh_token` is still `None`). -/
theorem cache_stale_after_login_cex :
    (login_app "a@x.com" "pw" (fun _ h => h = "HASH")
        { db := [sampleUserStale], cache := [("a@x.com", sampleUserStale)] } 0).2.cache
      = [("a@x.com", sampleUserStale)] ∧
    get_user_by_email "a@x.com"
        (login_app "a@x.com" "pw" (fun _ h => h = "HASH")
          { db := [sampleUserStale], cache := [("a@x.com", sampleUserStale)] } 0).2.db
      = some { sampleUserStale with
               refresh_token := some (create_refresh_token "a@x.com" none 0) } ∧
    (get_current_user_app (create_access_token "a@x.com" none 0)
        ((login_app "a@x.com" "pw" (fun _ h => h = "HASH")
          { db := [sampleUserStale], cache := [("a@x.com", sampleUserStale)] } 0).2) 10).1
      = .ok sampleUserStale := by decide

/-- C6 (amended): of the four user write paths, only the avatar update
overwrites the cache entry for the mutated user (with the refreshed
snapshot); the login, refresh and email-confirmation handlers mutate the
user record without invalidating or overwriting the cache, so a cached
snapshot with a stale `refresh_token` or `confirmed` value can be served
until its 300-second TTL expires. -/
theorem cache_write_path_discipline (email password res_url : String)
    (verify : String → String → Bool) (st : AppState) (t : Token) (now now2 : Nat) :
    (login_app email password verify st now).2.cache = st.cache ∧
    (refresh_app t st now).2.cache = st.cache ∧
    (confirmed_email_app t st now2).2.cache = st.cache ∧
    (∀ u, get_user_by_email email st.db = some u →
      (update_avatar_app email res_url st).2.cache
        = cache_set email { u with avatar := some res_url } st.cache ∧
      cache_get email (update_avatar_app email res_url st).2.cache
        = some { u with avatar := some res_url }) := by
  refine ⟨rfl, rfl, rfl, ?_⟩
  intro u hu
  have h1 : (update_avatar_app email res_url st).2.cache
      = cache_set email { u with avatar := some res_url } st.cache := by
    simp [update_avatar_app, hu]
  exact ⟨h1, by rw [h1]; exact cache_get_set email _ st.cache⟩

/-- Witness for `cache_write_path_discipline` at a concrete state holding
the sample user with an empty cache. -/
theorem cache_write_path_discipline_witness :
    (login_app "a@x.com" "pw" (fun _ h => h = "HASH")
        { db := [sampleUserStale], cache := [] } 0).2.cache = [] ∧
    (refresh_app sampleRefreshTok { db := [sampleUserStale], cache := [] } 0).2.cache = [] ∧
    (confirmed_email_app sampleRefreshTok
        { db := [sampleUserStale], cache := [] } 0).2.cache = [] ∧
    (∀ u, get_user_by_email "a@x.com" ([sampleUserStale] : Db) = some u →
      (update_avatar_app "a@x.com" "http://cdn/x"
          { db := [sampleUserStale], cache := [] }).2.cache
        = cache_set "a@x.com" { u with avatar := some "http://cdn/x" } [] ∧
      cache_get "a@x.com" (update_avatar_app "a@x.com" "http://cdn/x"
          { db := [sampleUserStale], cache := [] }).2.cache
        = some { u with avatar := some "http://cdn/x" }) :=
  cache_write_path_discipline "a@x.com" "pw" "http://cdn/x" (fun _ h => h = "HASH")
    { db := [sampleUserStale], cache := [] } sampleRefreshTok 0 0

/-! ## C9 — upcoming-birthdays window -/

/-- Every Gregorian month has at least 28 days. -/
theorem daysInMonth_ge (y m : Nat) : 28 ≤ daysInMonth y m := by
  unfold daysInMonth
  split
  · split <;> omega
  · split <;> omega

/-- Splitting a day shift. -/
theorem addDays_add (d : Date) (a b : Nat) :
    addDays d (a + b) = addDays (addDays d a) b := by
  induction a generalizing d with
  | zero => rw [Nat.zero_add]; rfl
  | succ a ih =>
    have h : a + 1 + b = (a + b) + 1 := by omega
    rw [h]
    show addDays (nextDay d) (a + b) = addDays (addDays (nextDay d) a) b
    exact ih (nextDay d)

/-- A shift that stays inside the current month just moves the day. -/
theorem addDays_within (n : Nat) (d : Date)
    (h : d.day + n ≤ daysInMonth d.year d.month) :
    addDays d n = ⟨d.year, d.month, d.day + n⟩ := by
  induction n generalizing d with
  | zero => cases d; rfl
  | succ n ih =>
    have hlt : d.day < daysInMonth d.year d.month := by omega
    have hnext : nextDay d = ⟨d.year, d.month, d.day + 1⟩ := by
      simp [nextDay, hlt]
    show addDays (nextDay d) n = _
    rw [hnext, ih ⟨d.year, d.month, d.day + 1⟩ (by simpa using by omega)]
    simp
    omega

/-- A shift of at most 8 days that leaves the current month lands in the
immediately following month, on day `d.day + n - daysInMonth`. -/
theorem addDays_cross (d : Date) (n : Nat) (hn : n ≤ 8)
    (_hd1 : 1 ≤ d.day) (hd2 : d.day ≤ daysInMonth d.year d.month)
    (hcross : daysInMonth d.year d.month < d.day + n) :
    addDays d n = ⟨(if d.month < 12 then d.year else d.year + 1),
                   (if d.month < 12 then d.month + 1 else 1),
                   d.day + n - daysInMonth d.year d.month⟩ := by
  have hk : d.day + (daysInMonth d.year d.month - d.day) = daysInMonth d.year d.month := by
    omega
  have hstep : addDays d (daysInMonth d.year d.month - d.day)
      = ⟨d.year, d.month, daysInMonth d.year d.month⟩ := by
    rw [addDays_within _ d (by omega), hk]
  have hsplit : n = (daysInMonth d.year d.month - d.day) + 1
      + (d.day + n - daysInMonth d.year d.month - 1) := by omega
  rw [hsplit, addDays_add, addDays_add, hstep]
  have hroll : addDays (⟨d.year, d.month, daysInMonth d.year d.month⟩ : Date) 1
      = ⟨(if d.month < 12 then d.year else d.year + 1),
         (if d.month < 12 then d.month + 1 else 1), 1⟩ := by
    show addDays (nextDay _) 0 = _
    simp only [nextDay, addDays]
    split
    · omega
    · split
      case isTrue h => simp [h]
      case isFalse h => simp [h]
  rw [hroll]
  rw [addDays_within _ _ ?_]
  · simp
    omega
  · have h28 := daysInMonth_ge (if d.month < 12 then d.year else d.year + 1)
      (if d.month < 12 then d.month + 1 else 1)
    simp
    omega

/-- Propositional reading of the birthday-window condition. -/
theorem congratulateCond_iff (dob cur fin : Date) :
    congratulateCond dob cur fin = true ↔
      ((dob.month = cur.month ∧ cur.day ≤ dob.day ∧ dob.day ≤ fin.day) ∨
       (dob.month = fin.month ∧ dob.day ≤ fin.day) ∨
       (dob.month = cur.month ∧ dob.day = cur.day)) := by
  simp [congratulateCond, and_assoc, or_assoc]

/-- The window condition accepts a birthday on the day/month 6 days from
today, except when today+6 is the last day of today's month. -/
theorem cond_six (today dob : Date) (hv : ValidDate today)
    (hm : dob.month = (addDays today 6).month)
    (hd : dob.day = (addDays today 6).day)
    (hb : today.day + 6 ≠ daysInMonth today.year today.month) :
    congratulateCond dob today (addDays today 7) = true := by
  obtain ⟨hm1, hm2, hd1, hd2⟩ := hv
  have h28 := daysInMonth_ge today.year today.month
  by_cases hA : today.day + 7 ≤ daysInMonth today.year today.month
  · rw [addDays_within 6 today (by omega)] at hm hd
    rw [addDays_within 7 today (by omega), congratulateCond_iff]
    simp only at hm hd ⊢
    omega
  · have hc6 : daysInMonth today.year today.month < today.day + 6 := by omega
    rw [addDays_cross today 6 (by omega) hd1 hd2 hc6] at hm hd
    rw [addDays_cross today 7 (by omega) hd1 hd2 (by omega), congratulateCond_iff]
    simp only at hm hd ⊢
    omega

/-- The window condition rejects a birthday on the day/month 8 days from
today, for every valid current date. -/
theorem cond_eight (today dob : Date) (hv : ValidDate today)
    (hm : dob.month = (addDays today 8).month)
    (hd : dob.day = (addDays today 8).day) :
    ¬ (congratulateCond dob today (addDays today 7) = true) := by
  obtain ⟨hm1, hm2, hd1, hd2⟩ := hv
  have h28 := daysInMonth_ge today.year today.month
  by_cases hA : today.day + 8 ≤ daysInMonth today.year today.month
  · rw [addDays_within 8 today (by omega)] at hm hd
    rw [addDays_within 7 today (by omega), congratulateCond_iff]
    simp only at hm hd ⊢
    omega
  · rw [addDays_cross today 8 (by omega) hd1 hd2 (by omega)] at hm hd
    by_cases hB : today.day + 7 ≤ daysInMonth today.year today.month
    · rw [addDays_within 7 today (by omega), congratulateCond_iff]
      simp only at hm hd ⊢
      rcases Nat.lt_or_ge today.month 12 with h12 | h12
      · rw [if_pos h12] at hm
        omega
      · rw [if_neg (by omega)] at hm
        omega
    · rw [addDays_cross today 7 (by omega) hd1 hd2 (by omega), congratulateCond_iff]
      simp only at hm hd ⊢
      rcases Nat.lt_or_ge today.month 12 with h12 | h12
      · rw [if_pos h12] at hm ⊢
        omega
      · rw [if_neg (by omega)] at hm ⊢
        omega

/-- Inserting into a day-sorted list keeps it day-sorted. -/
theorem sorted_insertByDay (c : Contact) (l : List Contact)
    (h : l.Pairwise (fun a b => a.date_of_birth.day ≤ b.date_of_birth.day)) :
    (insertByDay c l).Pairwise
      (fun a b => a.date_of_birth.day ≤ b.date_of_birth.day) := by
  induction l with
  | nil => simp [insertByDay]
  | cons x xs ih =>
    rcases List.pairwise_cons.mp h with ⟨hx, hxs⟩
    by_cases hc : c.date_of_birth.day ≤ x.date_of_birth.day
    · simp only [insertByDay, if_pos hc]
      refine List.pairwise_cons.mpr ⟨?_, h⟩
      intro y hy
      rcases List.mem_cons.mp hy with rfl | hy'
      · exact hc
      · exact Nat.le_trans hc (hx y hy')
    · simp only [insertByDay, if_neg hc]
      refine List.pairwise_cons.mpr ⟨?_, ih hxs⟩
      intro y hy
      rcases (mem_insertByDay y c xs).mp hy with rfl | hy'
      · omega
      · exact hx y hy'

/-- The sort used by `congratulate` produces a day-sorted list. -/
theorem sorted_sortByDay (l : List Contact) :
    (sortByDay l).Pairwise (fun a b => a.date_of_birth.day ≤ b.date_of_birth.day) := by
  induction l with
  | nil => simp [sortByDay]
  | cons x xs ih => exact sorted_insertByDay x _ ih

/-- Concrete contact of user 1 whose birthday month/day is March 31. -/
def sampleContactMar31 : Contact :=
  { id := 7, first_name := "Carol", last_name := "C", email := "c@x.com",
    phone_number := "2", date_of_birth := ⟨1990, 3, 31⟩, additional_data := "",
    user_id := 1 }

/-- C9 (counterexample): on 2026-03-25 the date 6 days ahead is
2026-03-31, yet `congratulate` returns the empty list for a user owning a
contact with birthday March 31 — the first window clause bounds the day by
the window end's day-of-month (April 1st), which is smaller. -/
theorem upcoming_birthdays_window_cex :
    addDays ⟨2026, 3, 25⟩ 6 = ⟨2026, 3, 31⟩ ∧
    sampleContactMar31.user_id = 1 ∧
    sampleContactMar31.date_of_birth.month = 3 ∧
    sampleContactMar31.date_of_birth.day = 31 ∧
    congratulate [sampleContactMar31] 1 ⟨2026, 3, 25⟩ = [] := by decide

/-- C9 (amended): for every valid current date, a contact of the calling
user whose birthday month/day falls 6 days after today is returned by
`congratulate` — except when today+6 is the last day of today's month (the
window end rolls into the next month and the in-month clause caps the day
by the end's day-of-month); a contact whose birthday falls 8 days after
today is never returned; and the result is ordered by day-of-month
ascending. -/
theorem upcoming_birthdays_window (today : Date) (uid : Nat) (cdb : CDb)
    (hv : ValidDate today) :
    (∀ c ∈ cdb, c.user_id = uid →
      c.date_of_birth.month = (addDays today 6).month →
      c.date_of_birth.day = (addDays today 6).day →
      today.day + 6 ≠ daysInMonth today.year today.month →
      c ∈ congratulate cdb uid today) ∧
    (∀ c : Contact,
      c.date_of_birth.month = (addDays today 8).month →
      c.date_of_birth.day = (addDays today 8).day →
      c ∉ congratulate cdb uid today) ∧
    (congratulate cdb uid today).Pairwise
      (fun a b => a.date_of_birth.day ≤ b.date_of_birth.day) := by
  refine ⟨?_, ?_, sorted_sortByDay _⟩
  · intro c hc hown hm hd hb
    rw [congratulate]
    rw [mem_sortByDay]
    refine List.mem_filter.mpr ⟨hc, ?_⟩
    simp only [Bool.and_eq_true, decide_eq_true_eq]
    exact ⟨cond_six today c.date_of_birth hv hm hd hb, hown⟩
  · intro c hm hd hmem
    rw [congratulate, mem_sortByDay] at hmem
    have := (List.mem_filter.mp hmem).2
    simp only [Bool.and_eq_true, decide_eq_true_eq] at this
    exact cond_eight today c.date_of_birth hv hm hd this.1

/-- Concrete contact of user 1 whose birthday month/day is March 16. -/
def sampleContactMar16 : Contact :=
  { id := 8, first_name := "Dan", last_name := "D", email := "d@x.com",
    phone_number := "3", date_of_birth := ⟨1990, 3, 16⟩, additional_data := "",
    user_id := 1 }

/-- Concrete contact of user 1 whose birthday month/day is March 18. -/
def sampleContactMar18 : Contact :=
  { id := 9, first_name := "Eve", last_name := "E", email := "e@x.com",
    phone_number := "4", date_of_birth := ⟨1990, 3, 18⟩, additional_data := "",
    user_id := 1 }

/-- Witness for `upcoming_birthdays_window` on 2026-03-10: the March 16
contact (6 days out) is returned, the March 18 contact (8 days out) is
not, and the result is day-sorted. -/
theorem upcoming_birthdays_window_witness :
    sampleContactMar16 ∈ congratulate [sampleContactMar16, sampleContactMar18] 1 ⟨2026, 3, 10⟩ ∧
    sampleContactMar18 ∉ congratulate [sampleContactMar16, sampleContactMar18] 1 ⟨2026, 3, 10⟩ ∧
    (congratulate [sampleContactMar16, sampleContactMar18] 1 ⟨2026, 3, 10⟩).Pairwise
      (fun a b => a.date_of_birth.day ≤ b.date_of_birth.day) :=
  ⟨(upcoming_birthdays_window ⟨2026, 3, 10⟩ 1 [sampleContactMar16, sampleContactMar18]
      (by unfold ValidDate; decide)).1 sampleContactMar16 (by decide) (by decide) (by decide)
      (by decide) (by decide),
   (upcoming_birthdays_window ⟨2026, 3, 10⟩ 1 [sampleContactMar16, sampleContactMar18]
      (by unfold ValidDate; decide)).2.1 sampleContactMar18 (by decide) (by decide),
   (upcoming_birthdays_window ⟨2026, 3, 10⟩ 1 [sampleContactMar16, sampleContactMar18]
      (by unfold ValidDate; decide)).2.2⟩
